import Mathlib

/-
Verification of the libobjecttracker core (src/src/object_tracker.cpp) against
its natural-language specification.

Modelling conventions:
- float/double values are modelled as exact rationals.
- Eigen rigid transforms are identified with their translation plus extrinsic
  Euler-angle decomposition, the representation the tracker reads and writes
  through pcl getTransformation / getTranslationAndEulerAngles.
- The external PCL collaborators (ICP registration, kd-tree nearest-neighbor
  search, point-cloud transformation) are passed in as pure oracle functions,
  mirroring the design boundary of the spec.
- chrono time points are rationals; a default-constructed time point is the
  clock epoch, value 0.
-/

namespace libobjecttracker

/-- Rational stand-in for the double constant M_PI: the IEEE-754 double
nearest to pi, exactly 884279719003555 / 2^48. -/
def M_PI : ℚ := 884279719003555 / 281474976710656

/-- Rational stand-in for DBL_MAX, the largest finite IEEE-754 double. -/
def DBL_MAX : ℚ := ((2 ^ 1024 - 2 ^ 971 : ℕ) : ℚ)

/-- Number of yaw hypotheses tried during initialization (N_YAW in the source). -/
def N_YAW : Nat := 20

/-- Squared-distance threshold of the initialization fit check: 8 millimeters,
INIT_MAX_HAUSDORFF_DIST2 = 0.008 * 0.008 in the source. -/
def INIT_MAX_HAUSDORFF_DIST2 : ℚ := (8 / 1000) * (8 / 1000)

/-- Value of a default-constructed chrono time point: the clock epoch. -/
def clockEpoch : ℚ := 0

/-- A 3D marker point (pcl PointXYZ) with exact rational coordinates. -/
structure Point3 where
  x : ℚ
  y : ℚ
  z : ℚ
  deriving DecidableEq, Repr

/-- A rigid transform (Eigen Affine3f), represented by its translation and
extrinsic Euler angles, the decomposition the tracker works with. -/
structure Pose where
  x : ℚ
  y : ℚ
  z : ℚ
  roll : ℚ
  pitch : ℚ
  yaw : ℚ
  deriving DecidableEq, Repr

/-- The origin point. -/
def origin3 : Point3 := { x := 0, y := 0, z := 0 }

/-- The identity pose. -/
def pose0 : Pose := { x := 0, y := 0, z := 0, roll := 0, pitch := 0, yaw := 0 }

/-- pcl getTransformation: build a transform from a translation and
roll, pitch, yaw Euler angles, in exactly this argument order. -/
def getTransformation (x y z roll pitch yaw : ℚ) : Pose :=
  { x := x, y := y, z := z, roll := roll, pitch := pitch, yaw := yaw }

/-- Nominal object-local marker layout of one object type
(a pcl point cloud in the source). -/
abbrev MarkerConfiguration := List Point3

/-- Per-object-type motion-plausibility bounds, field for field as used by
object_tracker.cpp. -/
structure DynamicsConfiguration where
  maxXVelocity : ℚ
  maxYVelocity : ℚ
  maxZVelocity : ℚ
  maxRollRate : ℚ
  maxPitchRate : ℚ
  maxYawRate : ℚ
  maxRoll : ℚ
  maxPitch : ℚ
  deriving DecidableEq, Repr

/-- Result of one ICP alignment: convergence flag, final transformation and
fitness score, as read off the pcl ICP object after align. -/
structure ICPResult where
  hasConverged : Bool
  finalTransformation : Pose
  fitnessScore : ℚ
  deriving DecidableEq, Repr

/-- The external PCL collaborators, as pure oracles:
icpAlign source target initialGuess maxCorrespondenceDistance;
nearestKSearch cloud queryPoint k, returning (index, squaredDistance) pairs;
transformPoint, applying a rigid transform to a point. -/
structure PCLPrimitives where
  icpAlign : MarkerConfiguration → List Point3 → Pose → ℚ → ICPResult
  nearestKSearch : List Point3 → Point3 → Nat → List (Nat × ℚ)
  transformPoint : Pose → Point3 → Point3

/-- Per-tracked-instance state, field for field as in object_tracker.h usage. -/
structure Object where
  m_markerConfigurationIdx : Nat
  m_dynamicsConfigurationIdx : Nat
  m_lastTransformation : Pose
  m_lastValidTransform : ℚ
  m_lastTransformationValid : Bool
  deriving DecidableEq, Repr

/-- The Object constructor: stores both configuration indices and the initial
transformation, default-constructs m_lastValidTransform (the clock epoch) and
clears the validity flag. -/
def Object.construct (markerConfigurationIdx dynamicsConfigurationIdx : Nat)
    (initialTransformation : Pose) : Object :=
  { m_markerConfigurationIdx := markerConfigurationIdx
    m_dynamicsConfigurationIdx := dynamicsConfigurationIdx
    m_lastTransformation := initialTransformation
    m_lastValidTransform := clockEpoch
    m_lastTransformationValid := false }

/-- Accessor Object::transformation(). -/
def Object.transformation (o : Object) : Pose := o.m_lastTransformation

/-- Accessor Object::lastTransformationValid(). -/
def Object.lastTransformationValid (o : Object) : Bool := o.m_lastTransformationValid

/-- The guess tried for yaw hypothesis i during initialization: the source
computes yaw = i * (2 * M_PI / N_YAW) and calls
getTransformation(center.x, center.y, center.z, yaw, 0, 0), so the
hypothesized angle is handed to the roll parameter of getTransformation. -/
def yawGuess (center : Point3) (i : Nat) : Pose :=
  getTransformation center.x center.y center.z ((i : ℚ) * (2 * M_PI / (N_YAW : ℚ))) 0 0

/-- Centroid of the points of the cloud selected by the first objNpts entries
of a nearest-neighbor query result; each coordinate sum is divided by objNpts. -/
def knnCentroid (markers : List Point3) (nearestIdx : List (Nat × ℚ))
    (objNpts : Nat) : Point3 :=
  let s := (List.range objNpts).foldl
    (fun c i =>
      let p := markers.getD (nearestIdx.getD i (0, 0)).1 origin3
      { x := c.x + p.x, y := c.y + p.y, z := c.z + p.z })
    origin3
  { x := s.x / (objNpts : ℚ), y := s.y / (objNpts : ℚ), z := s.z / (objNpts : ℚ) }

/-- The ICP call made for yaw hypothesis i in the initialization search:
source = object markers, target = full cloud, guess = the hypothesis transform,
with the default (unbounded) max correspondence distance. -/
def initAlign (prims : PCLPrimitives) (objMarkers : MarkerConfiguration)
    (markers : List Point3) (center : Point3) (i : Nat) : ICPResult :=
  prims.icpAlign objMarkers markers (yawGuess center i) DBL_MAX

/-- One iteration of the best-score search of the initialization loop:
keep the refined transform whenever the fitness score strictly improves. -/
def yawSearchStep (f : Nat → ICPResult) (acc : ℚ × Pose) (i : Nat) : ℚ × Pose :=
  let r := f i
  if r.fitnessScore < acc.1 then (r.fitnessScore, r.finalTransformation) else acc

/-- The initialization best-score search over all N_YAW hypotheses, starting
from bestErr = DBL_MAX and the current object transformation. -/
def yawSearch (f : Nat → ICPResult) (t0 : Pose) : ℚ × Pose :=
  (List.range N_YAW).foldl (yawSearchStep f) (DBL_MAX, t0)

/-- The neighborhood centroid computed for one object during initialization:
query the objNpts observed markers nearest to the translation of the current
object transformation and average them. -/
def objectInitCenter (prims : PCLPrimitives)
    (markerConfigurations : List MarkerConfiguration)
    (markers : List Point3) (object : Object) : Point3 :=
  let objMarkers := markerConfigurations.getD object.m_markerConfigurationIdx []
  let objNpts := objMarkers.length
  let ctr : Point3 :=
    { x := object.m_lastTransformation.x
      y := object.m_lastTransformation.y
      z := object.m_lastTransformation.z }
  knnCentroid markers (prims.nearestKSearch markers ctr objNpts) objNpts

/-- The per-object part of initialization that mutates the object: the yaw
hypothesis search writes the refined transform of the best-scoring hypothesis
into m_lastTransformation (or leaves it unchanged when no hypothesis scores
strictly below DBL_MAX). -/
def initializeObject (prims : PCLPrimitives)
    (markerConfigurations : List MarkerConfiguration)
    (markers : List Point3) (object : Object) : Object :=
  let objMarkers := markerConfigurations.getD object.m_markerConfigurationIdx []
  let center := objectInitCenter prims markerConfigurations markers object
  { object with
    m_lastTransformation :=
      (yawSearch (initAlign prims objMarkers markers center)
        object.m_lastTransformation).2 }

/-- The per-object fit check of initialization: transform the nominal markers
by the (already updated) object transformation and test every nearest observed
marker squared distance against INIT_MAX_HAUSDORFF_DIST2; a point whose
distance exceeds the threshold marks the fit as bad. -/
def objectFitGood (prims : PCLPrimitives)
    (markerConfigurations : List MarkerConfiguration)
    (markers : List Point3) (object : Object) : Bool :=
  let objMarkers := markerConfigurations.getD object.m_markerConfigurationIdx []
  (List.range objMarkers.length).all (fun i =>
    let p := prims.transformPoint object.m_lastTransformation (objMarkers.getD i origin3)
    let nearestSqrDist := ((prims.nearestKSearch markers p 1).getD 0 (0, 0)).2
    ! decide (nearestSqrDist > INIT_MAX_HAUSDORFF_DIST2))

/-- One iteration of the initialization loop over objects: update the object
through the yaw search, then and the fit-check outcome into allFitsGood. -/
def initializeBatchStep (prims : PCLPrimitives)
    (markerConfigurations : List MarkerConfiguration)
    (markers : List Point3) (acc : List Object × Bool) (object : Object) :
    List Object × Bool :=
  let object1 := initializeObject prims markerConfigurations markers object
  (acc.1 ++ [object1], acc.2 && objectFitGood prims markerConfigurations markers object1)

/-- ObjectTracker::initialize: run the per-object search and fit check over all
objects, returning the mutated objects and the allFitsGood flag. -/
def initializeBatch (prims : PCLPrimitives)
    (markerConfigurations : List MarkerConfiguration)
    (markers : List Point3) (objects : List Object) : List Object × Bool :=
  objects.foldl (initializeBatchStep prims markerConfigurations markers) ([], true)

/-- Elapsed time used by the tracking loop: current stamp minus the
m_lastValidTransform time point of the object. -/
def dtOf (stamp : ℚ) (object : Object) : ℚ := stamp - object.m_lastValidTransform

/-- The max correspondence distance handed to ICP by the tracking loop:
maxXVelocity of the dynamics configuration times dt. -/
def maxCorrespondenceDistance (dynConf : DynamicsConfiguration) (dt : ℚ) : ℚ :=
  dynConf.maxXVelocity * dt

/-- All-zero dynamics bounds, used as the out-of-range default of list lookup. -/
def zeroDynamics : DynamicsConfiguration :=
  { maxXVelocity := 0, maxYVelocity := 0, maxZVelocity := 0, maxRollRate := 0
    maxPitchRate := 0, maxYawRate := 0, maxRoll := 0, maxPitch := 0 }

/-- The dynamics gate of the tracking loop: all six finite-difference rates and
the absolute roll and pitch of the new pose must lie strictly below their
bounds; the absolute yaw of the new pose is not compared against anything. -/
abbrev dynamicsGate (dynConf : DynamicsConfiguration) (dt : ℚ) (last t : Pose) : Prop :=
  |(t.x - last.x) / dt| < dynConf.maxXVelocity ∧
  |(t.y - last.y) / dt| < dynConf.maxYVelocity ∧
  |(t.z - last.z) / dt| < dynConf.maxZVelocity ∧
  |(t.roll - last.roll) / dt| < dynConf.maxRollRate ∧
  |(t.pitch - last.pitch) / dt| < dynConf.maxPitchRate ∧
  |(t.yaw - last.yaw) / dt| < dynConf.maxYawRate ∧
  |t.roll| < dynConf.maxRoll ∧
  |t.pitch| < dynConf.maxPitch

/-- The per-object body of ObjectTracker::runICP: clear the validity flag,
compute dt, run ICP seeded from the last transformation with the velocity-bound
correspondence distance, and on convergence commit the new pose exactly when
the dynamics gate passes. -/
def trackObject (prims : PCLPrimitives)
    (dynamicsConfigurations : List DynamicsConfiguration)
    (markerConfigurations : List MarkerConfiguration)
    (markers : List Point3) (stamp : ℚ) (object0 : Object) : Object :=
  let object := { object0 with m_lastTransformationValid := false }
  let dt := dtOf stamp object
  let dynConf := dynamicsConfigurations.getD object.m_dynamicsConfigurationIdx zeroDynamics
  let objMarkers := markerConfigurations.getD object.m_markerConfigurationIdx []
  let r := prims.icpAlign objMarkers markers object.m_lastTransformation
    (maxCorrespondenceDistance dynConf dt)
  if r.hasConverged = false then object
  else
    let t := r.finalTransformation
    if dynamicsGate dynConf dt object.m_lastTransformation t then
      { object with
        m_lastTransformation := t
        m_lastValidTransform := stamp
        m_lastTransformationValid := true }
    else object

/-- The tracker state: the two configuration registries, the objects, and the
session-level initialized flag. -/
structure ObjectTracker where
  m_dynamicsConfigurations : List DynamicsConfiguration
  m_markerConfigurations : List MarkerConfiguration
  m_objects : List Object
  m_initialized : Bool
  deriving DecidableEq, Repr

/-- The ObjectTracker constructor: stores the registries and objects and clears
the initialized flag. -/
def ObjectTracker.construct (dynamicsConfigurations : List DynamicsConfiguration)
    (markerConfigurations : List MarkerConfiguration)
    (objects : List Object) : ObjectTracker :=
  { m_dynamicsConfigurations := dynamicsConfigurations
    m_markerConfigurations := markerConfigurations
    m_objects := objects
    m_initialized := false }

/-- Accessor ObjectTracker::objects(). -/
def ObjectTracker.objects (tracker : ObjectTracker) : List Object := tracker.m_objects

/-- ObjectTracker::runICP: lazily run initialization when the session is not
yet initialized (keeping its object mutations either way), then run the
per-object tracking body over every object in order. -/
def runICP (prims : PCLPrimitives) (tracker : ObjectTracker)
    (markers : List Point3) (stamp : ℚ) : ObjectTracker :=
  let tracker1 :=
    if tracker.m_initialized = true then tracker
    else
      let ib := initializeBatch prims tracker.m_markerConfigurations markers tracker.m_objects
      { tracker with m_objects := ib.1, m_initialized := ib.2 }
  { tracker1 with
    m_objects := tracker1.m_objects.map
      (trackObject prims tracker1.m_dynamicsConfigurations
        tracker1.m_markerConfigurations markers stamp) }

/-- ObjectTracker::update: forwards the point cloud to runICP with no
precondition check of any kind. -/
def update (prims : PCLPrimitives) (tracker : ObjectTracker)
    (markers : List Point3) (stamp : ℚ) : ObjectTracker :=
  runICP prims tracker markers stamp

/-! Concrete oracle instantiations used to evaluate the tracker on explicit
inputs. -/

/-- A permissive dynamics configuration: every bound is 100. -/
def wideDynamics : DynamicsConfiguration :=
  { maxXVelocity := 100, maxYVelocity := 100, maxZVelocity := 100, maxRollRate := 100
    maxPitchRate := 100, maxYawRate := 100, maxRoll := 100, maxPitch := 100 }

/-- A dynamics configuration whose per-axis velocity bounds differ:
the y bound (2) strictly exceeds the x bound (1). -/
def c6conf : DynamicsConfiguration :=
  { maxXVelocity := 1, maxYVelocity := 2, maxZVelocity := 1, maxRollRate := 100
    maxPitchRate := 100, maxYawRate := 100, maxRoll := 1, maxPitch := 1 }

/-- Registration oracle that always converges to the identity pose with zero
fitness score; nearest-neighbor queries return nothing. -/
def constPrims : PCLPrimitives :=
  { icpAlign := fun _ _ _ _ =>
      { hasConverged := true, finalTransformation := pose0, fitnessScore := 0 }
    nearestKSearch := fun _ _ _ => []
    transformPoint := fun _ p => p }

/-- Registration oracle that never converges. -/
def divergingPrims : PCLPrimitives :=
  { icpAlign := fun _ _ _ _ =>
      { hasConverged := false, finalTransformation := pose0, fitnessScore := 0 }
    nearestKSearch := fun _ _ _ => []
    transformPoint := fun _ p => p }

/-- Registration oracle that reports, in the yaw field of its result, the max
correspondence distance it was handed; it lets an accepted frame expose the
exact search radius the tracking loop chose. -/
def yawRecordingPrims : PCLPrimitives :=
  { icpAlign := fun _ _ _ maxCorr =>
      { hasConverged := true
        finalTransformation := { x := 0, y := 0, z := 0, roll := 0, pitch := 0, yaw := maxCorr }
        fitnessScore := 0 }
    nearestKSearch := fun _ _ _ => []
    transformPoint := fun _ p => p }

/-- An oracle that agrees with constPrims exactly at correspondence distance
100 and diverges everywhere else. -/
def constPrimsAt100 : PCLPrimitives :=
  { icpAlign := fun s t g d =>
      if d = 100 then constPrims.icpAlign s t g d
      else { hasConverged := false, finalTransformation := pose0, fitnessScore := 1 }
    nearestKSearch := fun _ _ _ => []
    transformPoint := fun _ p => p }

/-- A freshly constructed object referencing the first configurations. -/
def wObject : Object := Object.construct 0 0 pose0

/-- An already-initialized tracker holding one object. -/
def wTracker : ObjectTracker :=
  { m_dynamicsConfigurations := [wideDynamics]
    m_markerConfigurations := [[]]
    m_objects := [wObject]
    m_initialized := true }

/-! Helper lemmas. -/

/-- DBL_MAX is positive. -/
theorem DBL_MAX_pos : 0 < DBL_MAX := by
  unfold DBL_MAX
  have h : (2:ℕ) ^ 971 < 2 ^ 1024 := Nat.pow_lt_pow_right (by norm_num) (by norm_num)
  have h2 : 0 < (2:ℕ) ^ 1024 - 2 ^ 971 := Nat.sub_pos_of_lt h
  exact_mod_cast h2

/-- Clearing or setting the validity flag does not change dt. -/
theorem dtOf_set_valid (stamp : ℚ) (object : Object) (b : Bool) :
    dtOf stamp { object with m_lastTransformationValid := b } = dtOf stamp object := rfl

/-- When ICP does not converge, the tracking body leaves the object unchanged
except for the cleared validity flag. -/
theorem trackObject_not_converged
    (prims : PCLPrimitives) (dynamicsConfigurations : List DynamicsConfiguration)
    (markerConfigurations : List MarkerConfiguration)
    (markers : List Point3) (stamp : ℚ) (object : Object)
    (h : (prims.icpAlign (markerConfigurations.getD object.m_markerConfigurationIdx [])
        markers object.m_lastTransformation
        (maxCorrespondenceDistance
          (dynamicsConfigurations.getD object.m_dynamicsConfigurationIdx zeroDynamics)
          (dtOf stamp object))).hasConverged = false) :
    trackObject prims dynamicsConfigurations markerConfigurations markers stamp object
      = { object with m_lastTransformationValid := false } := by
  unfold trackObject
  dsimp only
  simp only [dtOf_set_valid]
  rw [if_pos h]

/-- When ICP converges but the dynamics gate fails, the tracking body leaves
the object unchanged except for the cleared validity flag. -/
theorem trackObject_gate_fail
    (prims : PCLPrimitives) (dynamicsConfigurations : List DynamicsConfiguration)
    (markerConfigurations : List MarkerConfiguration)
    (markers : List Point3) (stamp : ℚ) (object : Object)
    (hconv : (prims.icpAlign (markerConfigurations.getD object.m_markerConfigurationIdx [])
        markers object.m_lastTransformation
        (maxCorrespondenceDistance
          (dynamicsConfigurations.getD object.m_dynamicsConfigurationIdx zeroDynamics)
          (dtOf stamp object))).hasConverged = true)
    (hgate : ¬ dynamicsGate
        (dynamicsConfigurations.getD object.m_dynamicsConfigurationIdx zeroDynamics)
        (dtOf stamp object) object.m_lastTransformation
        (prims.icpAlign (markerConfigurations.getD object.m_markerConfigurationIdx [])
          markers object.m_lastTransformation
          (maxCorrespondenceDistance
            (dynamicsConfigurations.getD object.m_dynamicsConfigurationIdx zeroDynamics)
            (dtOf stamp object))).finalTransformation) :
    trackObject prims dynamicsConfigurations markerConfigurations markers stamp object
      = { object with m_lastTransformationValid := false } := by
  unfold trackObject
  dsimp only
  simp only [dtOf_set_valid]
  rw [if_neg (by rw [hconv]; decide), if_neg hgate]

/-- When ICP converges and the dynamics gate passes, the tracking body commits
the new transform, the stamp and the validity flag. -/
theorem trackObject_gate_pass
    (prims : PCLPrimitives) (dynamicsConfigurations : List DynamicsConfiguration)
    (markerConfigurations : List MarkerConfiguration)
    (markers : List Point3) (stamp : ℚ) (object : Object)
    (hconv : (prims.icpAlign (markerConfigurations.getD object.m_markerConfigurationIdx [])
        markers object.m_lastTransformation
        (maxCorrespondenceDistance
          (dynamicsConfigurations.getD object.m_dynamicsConfigurationIdx zeroDynamics)
          (dtOf stamp object))).hasConverged = true)
    (hgate : dynamicsGate
        (dynamicsConfigurations.getD object.m_dynamicsConfigurationIdx zeroDynamics)
        (dtOf stamp object) object.m_lastTransformation
        (prims.icpAlign (markerConfigurations.getD object.m_markerConfigurationIdx [])
          markers object.m_lastTransformation
          (maxCorrespondenceDistance
            (dynamicsConfigurations.getD object.m_dynamicsConfigurationIdx zeroDynamics)
            (dtOf stamp object))).finalTransformation) :
    trackObject prims dynamicsConfigurations markerConfigurations markers stamp object
      = { object with
          m_lastTransformation :=
            (prims.icpAlign (markerConfigurations.getD object.m_markerConfigurationIdx [])
              markers object.m_lastTransformation
              (maxCorrespondenceDistance
                (dynamicsConfigurations.getD object.m_dynamicsConfigurationIdx zeroDynamics)
                (dtOf stamp object))).finalTransformation
          m_lastValidTransform := stamp
          m_lastTransformationValid := true } := by
  unfold trackObject
  dsimp only
  simp only [dtOf_set_valid]
  rw [if_neg (by rw [hconv]; decide), if_pos hgate]

/-- Unrolling of the initialization loop with a general accumulator. -/
theorem initializeBatch_foldl
    (prims : PCLPrimitives) (markerConfigurations : List MarkerConfiguration)
    (markers : List Point3) (objects : List Object)
    (accL : List Object) (accB : Bool) :
    objects.foldl (initializeBatchStep prims markerConfigurations markers) (accL, accB)
      = (accL ++ objects.map (initializeObject prims markerConfigurations markers),
         accB && objects.all (fun o =>
           objectFitGood prims markerConfigurations markers
             (initializeObject prims markerConfigurations markers o))) := by
  induction objects generalizing accL accB with
  | nil => simp
  | cons o os ih =>
    rw [List.foldl_cons,
      show initializeBatchStep prims markerConfigurations markers (accL, accB) o
        = (accL ++ [initializeObject prims markerConfigurations markers o],
           accB && objectFitGood prims markerConfigurations markers
             (initializeObject prims markerConfigurations markers o)) from rfl,
      ih]
    simp [Bool.and_assoc]

/-- ObjectTracker::initialize maps the per-object search over all objects and
conjoins all per-object fit checks. -/
theorem initializeBatch_spec
    (prims : PCLPrimitives) (markerConfigurations : List MarkerConfiguration)
    (markers : List Point3) (objects : List Object) :
    initializeBatch prims markerConfigurations markers objects
      = (objects.map (initializeObject prims markerConfigurations markers),
         objects.all (fun o =>
           objectFitGood prims markerConfigurations markers
             (initializeObject prims markerConfigurations markers o))) := by
  unfold initializeBatch
  rw [initializeBatch_foldl]
  simp

/-- Argmin property of the best-score fold: either no tried hypothesis strictly
improved the accumulator, or the fold returns a tried hypothesis whose score is
minimal among all tried hypotheses. -/
theorem yawSearchStep_foldl_spec (f : Nat → ICPResult) (l : List Nat) (acc : ℚ × Pose) :
    (l.foldl (yawSearchStep f) acc = acc ∧ ∀ i ∈ l, acc.1 ≤ (f i).fitnessScore) ∨
    (∃ i ∈ l,
      (l.foldl (yawSearchStep f) acc).1 = (f i).fitnessScore ∧
      (l.foldl (yawSearchStep f) acc).2 = (f i).finalTransformation ∧
      (l.foldl (yawSearchStep f) acc).1 ≤ acc.1 ∧
      ∀ j ∈ l, (l.foldl (yawSearchStep f) acc).1 ≤ (f j).fitnessScore) := by
  induction l generalizing acc with
  | nil => exact Or.inl ⟨rfl, by simp⟩
  | cons x xs ih =>
    rw [List.foldl_cons]
    by_cases hx : (f x).fitnessScore < acc.1
    · rw [show yawSearchStep f acc x = ((f x).fitnessScore, (f x).finalTransformation) from by
        simp [yawSearchStep, hx]]
      rcases ih ((f x).fitnessScore, (f x).finalTransformation) with
        ⟨heq, hall⟩ | ⟨i, hi, h1, h2, hle, hall⟩
      · refine Or.inr ⟨x, List.mem_cons_self x xs, ?_, ?_, ?_, ?_⟩
        · rw [heq]
        · rw [heq]
        · rw [heq]; exact le_of_lt hx
        · intro j hj
          rw [heq]
          rcases List.mem_cons.mp hj with hj | hj
          · subst hj; exact le_refl _
          · exact hall j hj
      · refine Or.inr ⟨i, List.mem_cons_of_mem x hi, h1, h2, ?_, ?_⟩
        · exact le_trans hle (le_of_lt hx)
        · intro j hj
          rcases List.mem_cons.mp hj with hj | hj
          · subst hj; exact hle
          · exact hall j hj
    · rw [show yawSearchStep f acc x = acc from by simp [yawSearchStep, hx]]
      rcases ih acc with ⟨heq, hall⟩ | ⟨i, hi, h1, h2, hle, hall⟩
      · refine Or.inl ⟨heq, ?_⟩
        intro j hj
        rcases List.mem_cons.mp hj with hj | hj
        · subst hj; exact le_of_not_lt hx
        · exact hall j hj
      · refine Or.inr ⟨i, List.mem_cons_of_mem x hi, h1, h2, hle, ?_⟩
        intro j hj
        rcases List.mem_cons.mp hj with hj | hj
        · subst hj; exact le_trans hle (le_of_not_lt hx)
        · exact hall j hj

/-- When some hypothesis scores strictly below DBL_MAX, the initialization
search returns the refined transform of a minimal-score hypothesis. -/
theorem yawSearch_argmin (f : Nat → ICPResult) (t0 : Pose)
    (h : ∃ i, i < N_YAW ∧ (f i).fitnessScore < DBL_MAX) :
    ∃ i, i < N_YAW ∧
      (yawSearch f t0).2 = (f i).finalTransformation ∧
      ∀ j, j < N_YAW → (f i).fitnessScore ≤ (f j).fitnessScore := by
  obtain ⟨i0, hi0, hfit⟩ := h
  rcases yawSearchStep_foldl_spec f (List.range N_YAW) (DBL_MAX, t0) with
    ⟨heq, hall⟩ | ⟨i, hi, h1, h2, hle, hall⟩
  · exact absurd (hall i0 (List.mem_range.mpr hi0)) (not_le.mpr hfit)
  · refine ⟨i, List.mem_range.mp hi, h2, ?_⟩
    intro j hj
    have hj2 := hall j (List.mem_range.mpr hj)
    rw [h1] at hj2
    exact hj2

/-- An already-initialized tracker maps the tracking body over its objects. -/
theorem runICP_initialized
    (prims : PCLPrimitives) (tracker : ObjectTracker)
    (markers : List Point3) (stamp : ℚ)
    (h : tracker.m_initialized = true) :
    (runICP prims tracker markers stamp).m_objects
      = tracker.m_objects.map
          (trackObject prims tracker.m_dynamicsConfigurations
            tracker.m_markerConfigurations markers stamp) := by
  unfold runICP
  simp [h]

/-! Claim theorems. -/

/-- C1: for a tracking frame whose registration converged, the new pose is
accepted if and only if all six finite-difference rates lie strictly below the
per-axis velocity and angular-rate bounds and the absolute roll and pitch of
the new pose lie strictly below the absolute attitude bounds; on acceptance
the new transform becomes m_lastTransformation, the frame stamp becomes
m_lastValidTransform, and the validity flag is set. The strict comparisons give
the bound-minus-epsilon accept / bound-plus-epsilon reject boundary behavior
independently on each of the eight conditions. -/
theorem C1_gate_acceptance
    (prims : PCLPrimitives) (dynamicsConfigurations : List DynamicsConfiguration)
    (markerConfigurations : List MarkerConfiguration)
    (markers : List Point3) (stamp : ℚ) (object obj1 : Object)
    (dynConf : DynamicsConfiguration) (dt : ℚ) (r : ICPResult)
    (hc : dynConf = dynamicsConfigurations.getD object.m_dynamicsConfigurationIdx zeroDynamics)
    (hdt : dt = dtOf stamp object)
    (hr : r = prims.icpAlign (markerConfigurations.getD object.m_markerConfigurationIdx [])
        markers object.m_lastTransformation (maxCorrespondenceDistance dynConf dt))
    (hconv : r.hasConverged = true)
    (hobj : obj1 = trackObject prims dynamicsConfigurations markerConfigurations markers stamp object) :
    (obj1.m_lastTransformationValid = true ↔
      (|(r.finalTransformation.x - object.m_lastTransformation.x) / dt| < dynConf.maxXVelocity ∧
       |(r.finalTransformation.y - object.m_lastTransformation.y) / dt| < dynConf.maxYVelocity ∧
       |(r.finalTransformation.z - object.m_lastTransformation.z) / dt| < dynConf.maxZVelocity ∧
       |(r.finalTransformation.roll - object.m_lastTransformation.roll) / dt| < dynConf.maxRollRate ∧
       |(r.finalTransformation.pitch - object.m_lastTransformation.pitch) / dt| < dynConf.maxPitchRate ∧
       |(r.finalTransformation.yaw - object.m_lastTransformation.yaw) / dt| < dynConf.maxYawRate ∧
       |r.finalTransformation.roll| < dynConf.maxRoll ∧
       |r.finalTransformation.pitch| < dynConf.maxPitch)) ∧
    (obj1.m_lastTransformationValid = true →
      obj1.m_lastTransformation = r.finalTransformation ∧
      obj1.m_lastValidTransform = stamp) := by
  subst hc hdt hr hobj
  by_cases hg : dynamicsGate
      (dynamicsConfigurations.getD object.m_dynamicsConfigurationIdx zeroDynamics)
      (dtOf stamp object) object.m_lastTransformation
      (prims.icpAlign (markerConfigurations.getD object.m_markerConfigurationIdx [])
        markers object.m_lastTransformation
        (maxCorrespondenceDistance
          (dynamicsConfigurations.getD object.m_dynamicsConfigurationIdx zeroDynamics)
          (dtOf stamp object))).finalTransformation
  · rw [trackObject_gate_pass _ _ _ _ _ _ hconv hg]
    exact ⟨⟨fun _ => hg, fun _ => rfl⟩, fun _ => ⟨rfl, rfl⟩⟩
  · rw [trackObject_gate_fail _ _ _ _ _ _ hconv hg]
    refine ⟨⟨fun hv => absurd hv (by simp), fun hcond => absurd hcond hg⟩,
      fun hv => absurd hv (by simp)⟩

/-- C1 witness: a concrete converged frame within all bounds is accepted. -/
theorem C1_gate_acceptance_witness :
    (trackObject constPrims [wideDynamics] [[]] [] 1 wObject).m_lastTransformationValid = true := by
  have h := C1_gate_acceptance constPrims [wideDynamics] [[]] [] 1 wObject
    (trackObject constPrims [wideDynamics] [[]] [] 1 wObject)
    ([wideDynamics].getD wObject.m_dynamicsConfigurationIdx zeroDynamics)
    (dtOf 1 wObject)
    (constPrims.icpAlign ([[]].getD wObject.m_markerConfigurationIdx []) []
      wObject.m_lastTransformation
      (maxCorrespondenceDistance
        ([wideDynamics].getD wObject.m_dynamicsConfigurationIdx zeroDynamics)
        (dtOf 1 wObject)))
    rfl rfl rfl (by decide) rfl
  exact h.1.mpr (by
    norm_num [constPrims, wObject, Object.construct, pose0, wideDynamics, zeroDynamics,
      maxCorrespondenceDistance, dtOf, clockEpoch])

/-- C2: a frame rejected for an object — ICP non-convergence or a dynamics
gate violation — leaves the transformation of the object and its last valid
stamp exactly as before the call and leaves the validity flag false, while the
frame update still processes every object of the tracker in order. -/
theorem C2_rejection_preserves_state
    (prims : PCLPrimitives) (dynamicsConfigurations : List DynamicsConfiguration)
    (markerConfigurations : List MarkerConfiguration)
    (markers : List Point3) (stamp : ℚ) (object obj1 : Object)
    (dynConf : DynamicsConfiguration) (dt : ℚ) (r : ICPResult) (tracker : ObjectTracker)
    (hc : dynConf = dynamicsConfigurations.getD object.m_dynamicsConfigurationIdx zeroDynamics)
    (hdt : dt = dtOf stamp object)
    (hr : r = prims.icpAlign (markerConfigurations.getD object.m_markerConfigurationIdx [])
        markers object.m_lastTransformation (maxCorrespondenceDistance dynConf dt))
    (hobj : obj1 = trackObject prims dynamicsConfigurations markerConfigurations markers stamp object)
    (hrej : r.hasConverged = false ∨
      ¬ dynamicsGate dynConf dt object.m_lastTransformation r.finalTransformation)
    (htr : tracker.m_initialized = true) :
    obj1.transformation = object.transformation ∧
    obj1.lastTransformationValid = false ∧
    obj1.m_lastValidTransform = object.m_lastValidTransform ∧
    (runICP prims tracker markers stamp).m_objects
      = tracker.m_objects.map
          (trackObject prims tracker.m_dynamicsConfigurations
            tracker.m_markerConfigurations markers stamp) := by
  subst hc hdt hr hobj
  rcases hrej with hnc | hng
  · rw [trackObject_not_converged _ _ _ _ _ _ hnc]
    exact ⟨rfl, rfl, rfl, runICP_initialized _ _ _ _ htr⟩
  · cases hb : (prims.icpAlign (markerConfigurations.getD object.m_markerConfigurationIdx [])
        markers object.m_lastTransformation
        (maxCorrespondenceDistance
          (dynamicsConfigurations.getD object.m_dynamicsConfigurationIdx zeroDynamics)
          (dtOf stamp object))).hasConverged with
    | false =>
      rw [trackObject_not_converged _ _ _ _ _ _ hb]
      exact ⟨rfl, rfl, rfl, runICP_initialized _ _ _ _ htr⟩
    | true =>
      rw [trackObject_gate_fail _ _ _ _ _ _ hb hng]
      exact ⟨rfl, rfl, rfl, runICP_initialized _ _ _ _ htr⟩

/-- C2 witness: a concrete non-converged frame is rejected and preserves the
object state. -/
theorem C2_rejection_witness :
    (trackObject divergingPrims [wideDynamics] [[]] [] 1 wObject).lastTransformationValid = false := by
  have h := C2_rejection_preserves_state divergingPrims [wideDynamics] [[]] [] 1 wObject
    (trackObject divergingPrims [wideDynamics] [[]] [] 1 wObject)
    ([wideDynamics].getD wObject.m_dynamicsConfigurationIdx zeroDynamics)
    (dtOf 1 wObject)
    (divergingPrims.icpAlign ([[]].getD wObject.m_markerConfigurationIdx []) []
      wObject.m_lastTransformation
      (maxCorrespondenceDistance
        ([wideDynamics].getD wObject.m_dynamicsConfigurationIdx zeroDynamics)
        (dtOf 1 wObject)))
    wTracker rfl rfl rfl rfl (Or.inl (by decide)) rfl
  exact h.2.1

/-- C3: the initialization search does try 20 evenly spaced hypotheses of
angle i * (2 * M_PI / 20) and keeps the best-scoring refined transform, but
the hypothesized angle is handed to the roll parameter of getTransformation
while the yaw parameter receives 0: hypothesis 1 rotates about the x axis
(roll) by 2 * M_PI / 20 and has yaw 0, contradicting the claimed
yaw-with-zero-roll candidates and the source comment about yaw guesses. -/
theorem C3_yaw_hypothesis_rotates_roll :
    (yawGuess origin3 1).roll = 2 * M_PI / 20 ∧
    (yawGuess origin3 1).pitch = 0 ∧
    (yawGuess origin3 1).yaw = 0 ∧
    (yawGuess origin3 1).roll ≠ 0 := by
  norm_num [yawGuess, getTransformation, origin3, M_PI, N_YAW]

/-- C4: initialization reports success exactly when, for every object, every
nominal marker transformed by the post-search transform of that object has a
nearest observed-marker squared distance at most the 8 mm threshold; a single
failing object therefore fails the whole batch. -/
theorem C4_all_or_nothing
    (prims : PCLPrimitives) (markerConfigurations : List MarkerConfiguration)
    (markers : List Point3) (objects : List Object) :
    (initializeBatch prims markerConfigurations markers objects).2 = true ↔
      ∀ object ∈ objects,
        ∀ i < (markerConfigurations.getD
            (initializeObject prims markerConfigurations markers object).m_markerConfigurationIdx
            []).length,
          ((prims.nearestKSearch markers
              (prims.transformPoint
                (initializeObject prims markerConfigurations markers object).m_lastTransformation
                ((markerConfigurations.getD
                  (initializeObject prims markerConfigurations markers object).m_markerConfigurationIdx
                  []).getD i origin3))
              1).getD 0 (0, 0)).2 ≤ INIT_MAX_HAUSDORFF_DIST2 := by
  rw [initializeBatch_spec]
  dsimp only
  rw [List.all_eq_true]
  constructor
  · intro h object hobj i hi
    have h1 := h object hobj
    unfold objectFitGood at h1
    rw [List.all_eq_true] at h1
    have h2 := h1 i (List.mem_range.mpr hi)
    simp only [Bool.not_eq_true', decide_eq_false_iff_not, not_lt] at h2
    exact h2
  · intro h object hobj
    unfold objectFitGood
    rw [List.all_eq_true]
    intro i hi
    simp only [Bool.not_eq_true', decide_eq_false_iff_not, not_lt]
    exact h object hobj i (List.mem_range.mp hi)

/-- C5: whenever some hypothesis scores strictly below DBL_MAX, the search
overwrites m_lastTransformation of the object with the refined transform of a
best-scoring hypothesis, and initializeBatch returns exactly these mutated
objects regardless of the fit-check outcome — a failed batch does not restore
the transforms held before initialization. -/
theorem C5_partial_commit
    (prims : PCLPrimitives) (markerConfigurations : List MarkerConfiguration)
    (markers : List Point3) (object : Object) (objects : List Object)
    (objMarkers : MarkerConfiguration) (center : Point3)
    (hm : objMarkers = markerConfigurations.getD object.m_markerConfigurationIdx [])
    (hcen : center = objectInitCenter prims markerConfigurations markers object)
    (h : ∃ i, i < N_YAW ∧ (initAlign prims objMarkers markers center i).fitnessScore < DBL_MAX) :
    (∃ i, i < N_YAW ∧
      (initializeObject prims markerConfigurations markers object).m_lastTransformation
        = (initAlign prims objMarkers markers center i).finalTransformation ∧
      ∀ j, j < N_YAW →
        (initAlign prims objMarkers markers center i).fitnessScore
          ≤ (initAlign prims objMarkers markers center j).fitnessScore) ∧
    (initializeBatch prims markerConfigurations markers objects).1
      = objects.map (initializeObject prims markerConfigurations markers) := by
  subst hm hcen
  constructor
  · obtain ⟨i, hi, h2, h3⟩ := yawSearch_argmin
      (initAlign prims (markerConfigurations.getD object.m_markerConfigurationIdx []) markers
        (objectInitCenter prims markerConfigurations markers object))
      object.m_lastTransformation h
    exact ⟨i, hi, h2, h3⟩
  · rw [initializeBatch_spec]

/-- C5 witness: a concrete batch whose transforms are committed by the search. -/
theorem C5_partial_commit_witness :
    (initializeBatch constPrims [[]] [] [wObject]).1
      = [wObject].map (initializeObject constPrims [[]] []) := by
  have h := C5_partial_commit constPrims [[]] [] wObject [wObject]
    ([[]].getD wObject.m_markerConfigurationIdx [])
    (objectInitCenter constPrims [[]] [] wObject)
    rfl rfl ⟨0, by decide, by show (0:ℚ) < DBL_MAX; exact DBL_MAX_pos⟩
  exact h.2

/-- C6 counterexample: with per-axis velocity bounds (1, 2, 1) and dt = 1 the
tracking body hands the registration primitive search radius
maxXVelocity * dt = 1 and an accepting frame records it, while the maximum
linear velocity of the configuration times dt is 2. -/
theorem C6_counterexample :
    (trackObject yawRecordingPrims [c6conf] [[]] [] 1 wObject).m_lastTransformationValid = true ∧
    (trackObject yawRecordingPrims [c6conf] [[]] [] 1 wObject).m_lastTransformation.yaw = 1 ∧
    (1 : ℚ) = c6conf.maxXVelocity * dtOf 1 wObject ∧
    (1 : ℚ) ≠ max (max c6conf.maxXVelocity c6conf.maxYVelocity) c6conf.maxZVelocity
      * dtOf 1 wObject := by
  have hg : dynamicsGate ([c6conf].getD wObject.m_dynamicsConfigurationIdx zeroDynamics)
      (dtOf 1 wObject) wObject.m_lastTransformation
      (yawRecordingPrims.icpAlign ([[]].getD wObject.m_markerConfigurationIdx []) []
        wObject.m_lastTransformation
        (maxCorrespondenceDistance ([c6conf].getD wObject.m_dynamicsConfigurationIdx zeroDynamics)
          (dtOf 1 wObject))).finalTransformation := by
    norm_num [dynamicsGate, yawRecordingPrims, wObject, Object.construct, pose0, c6conf,
      zeroDynamics, maxCorrespondenceDistance, dtOf, clockEpoch]
  rw [trackObject_gate_pass _ _ _ _ _ _ rfl hg]
  refine ⟨rfl, ?_, ?_, ?_⟩
  · norm_num [yawRecordingPrims, wObject, Object.construct, pose0, c6conf, zeroDynamics,
      maxCorrespondenceDistance, dtOf, clockEpoch]
  · norm_num [c6conf, wObject, Object.construct, dtOf, clockEpoch]
  · have h1 : max c6conf.maxXVelocity c6conf.maxYVelocity = 2 :=
      max_eq_right (by norm_num [c6conf])
    have h2 : max (2 : ℚ) c6conf.maxZVelocity = 2 :=
      max_eq_left (by norm_num [c6conf])
    rw [h1, h2]
    norm_num [wObject, Object.construct, dtOf, clockEpoch]

/-- C6 (amended): the registration primitive is consulted exactly at max
correspondence distance maxXVelocity * (stamp - m_lastValidTransform) — the
x-axis velocity bound of the dynamics configuration of the object times the
elapsed time — so any two oracles agreeing on that one query give the same
tracking result. -/
theorem C6_amended_correspondence_distance
    (prims prims2 : PCLPrimitives)
    (dynamicsConfigurations : List DynamicsConfiguration)
    (markerConfigurations : List MarkerConfiguration)
    (markers : List Point3) (stamp : ℚ) (object : Object)
    (hagree : prims.icpAlign (markerConfigurations.getD object.m_markerConfigurationIdx [])
        markers object.m_lastTransformation
        ((dynamicsConfigurations.getD object.m_dynamicsConfigurationIdx zeroDynamics).maxXVelocity
          * (stamp - object.m_lastValidTransform))
      = prims2.icpAlign (markerConfigurations.getD object.m_markerConfigurationIdx [])
        markers object.m_lastTransformation
        ((dynamicsConfigurations.getD object.m_dynamicsConfigurationIdx zeroDynamics).maxXVelocity
          * (stamp - object.m_lastValidTransform))) :
    trackObject prims dynamicsConfigurations markerConfigurations markers stamp object
      = trackObject prims2 dynamicsConfigurations markerConfigurations markers stamp object := by
  unfold trackObject
  dsimp only
  simp only [dtOf_set_valid]
  rw [show maxCorrespondenceDistance
        (dynamicsConfigurations.getD object.m_dynamicsConfigurationIdx zeroDynamics)
        (dtOf stamp object)
      = (dynamicsConfigurations.getD object.m_dynamicsConfigurationIdx zeroDynamics).maxXVelocity
        * (stamp - object.m_lastValidTransform) from rfl]
  rw [hagree]

/-- C6 amended witness: two concrete oracles agreeing at the one consulted
correspondence distance give identical tracking results. -/
theorem C6_amended_witness :
    trackObject constPrims [wideDynamics] [[]] [] 1 wObject
      = trackObject constPrimsAt100 [wideDynamics] [[]] [] 1 wObject :=
  C6_amended_correspondence_distance constPrims constPrimsAt100 [wideDynamics] [[]] [] 1 wObject
    (by norm_num [constPrims, constPrimsAt100, wideDynamics, wObject, Object.construct,
      pose0, zeroDynamics, clockEpoch])

/-- C7 counterexample: a freshly constructed object stores the default clock
time point, so at frame stamp 7 its dt is 7 — the elapsed time since the
clock epoch — and differs from the elapsed time since a construction at clock
time 5, namely 2. -/
theorem C7_counterexample :
    dtOf 7 (Object.construct 0 0 pose0) = 7 ∧ (7 : ℚ) ≠ 7 - 5 := by
  norm_num [dtOf, Object.construct, clockEpoch]

/-- C7 (amended): dt equals the current frame stamp minus m_lastValidTransform
of the object; a constructed object that never had an accepted pose holds the
clock epoch there, so its dt measures time elapsed since the clock epoch,
independent of when the object was constructed. -/
theorem C7_amended_dt (stamp : ℚ) (m d : Nat) (t : Pose) (object : Object) :
    dtOf stamp object = stamp - object.m_lastValidTransform ∧
    (Object.construct m d t).m_lastValidTransform = clockEpoch ∧
    dtOf stamp (Object.construct m d t) = stamp - clockEpoch :=
  ⟨rfl, rfl, rfl⟩

/-- C8: m_lastValidTransform changes only in a frame that sets the validity
flag, and when the frame stamp strictly exceeds the stored stamp — as a
monotone clock provides — an accepted frame strictly advances it. -/
theorem C8_timestamp_monotonic
    (prims : PCLPrimitives) (dynamicsConfigurations : List DynamicsConfiguration)
    (markerConfigurations : List MarkerConfiguration)
    (markers : List Point3) (stamp : ℚ) (object obj1 : Object)
    (hobj : obj1 = trackObject prims dynamicsConfigurations markerConfigurations markers stamp object) :
    (obj1.m_lastTransformationValid = false →
      obj1.m_lastValidTransform = object.m_lastValidTransform) ∧
    (object.m_lastValidTransform < stamp → obj1.m_lastTransformationValid = true →
      object.m_lastValidTransform < obj1.m_lastValidTransform) := by
  subst hobj
  cases hb : (prims.icpAlign (markerConfigurations.getD object.m_markerConfigurationIdx [])
      markers object.m_lastTransformation
      (maxCorrespondenceDistance
        (dynamicsConfigurations.getD object.m_dynamicsConfigurationIdx zeroDynamics)
        (dtOf stamp object))).hasConverged with
  | false =>
    rw [trackObject_not_converged _ _ _ _ _ _ hb]
    exact ⟨fun _ => rfl, fun _ hv => absurd hv (by simp)⟩
  | true =>
    by_cases hg : dynamicsGate
        (dynamicsConfigurations.getD object.m_dynamicsConfigurationIdx zeroDynamics)
        (dtOf stamp object) object.m_lastTransformation
        (prims.icpAlign (markerConfigurations.getD object.m_markerConfigurationIdx [])
          markers object.m_lastTransformation
          (maxCorrespondenceDistance
            (dynamicsConfigurations.getD object.m_dynamicsConfigurationIdx zeroDynamics)
            (dtOf stamp object))).finalTransformation
    · rw [trackObject_gate_pass _ _ _ _ _ _ hb hg]
      exact ⟨fun hv => absurd hv (by simp), fun hlt _ => hlt⟩
    · rw [trackObject_gate_fail _ _ _ _ _ _ hb hg]
      exact ⟨fun _ => rfl, fun _ hv => absurd hv (by simp)⟩

/-- C8 witness: a concrete accepted frame strictly advances the stored stamp. -/
theorem C8_timestamp_witness :
    wObject.m_lastValidTransform
      < (trackObject constPrims [wideDynamics] [[]] [] 1 wObject).m_lastValidTransform := by
  have hg : dynamicsGate ([wideDynamics].getD wObject.m_dynamicsConfigurationIdx zeroDynamics)
      (dtOf 1 wObject) wObject.m_lastTransformation
      (constPrims.icpAlign ([[]].getD wObject.m_markerConfigurationIdx []) []
        wObject.m_lastTransformation
        (maxCorrespondenceDistance
          ([wideDynamics].getD wObject.m_dynamicsConfigurationIdx zeroDynamics)
          (dtOf 1 wObject))).finalTransformation := by
    norm_num [dynamicsGate, constPrims, wObject, Object.construct, pose0, wideDynamics,
      zeroDynamics, maxCorrespondenceDistance, dtOf, clockEpoch]
  have h := C8_timestamp_monotonic constPrims [wideDynamics] [[]] [] 1 wObject
    (trackObject constPrims [wideDynamics] [[]] [] 1 wObject) rfl
  refine h.2 (by norm_num [wObject, Object.construct, clockEpoch]) ?_
  rw [trackObject_gate_pass _ _ _ _ _ _ rfl hg]

/-- C9: the dynamics gate is invariant under shifting the yaw of the previous
and the new pose by any common offset — the absolute yaw of the new pose is
never compared against a bound; only the yaw rate and the other seven
conditions decide acceptance, so arbitrarily large yaw values pass. -/
theorem C9_yaw_unbounded (dynConf : DynamicsConfiguration) (dt d : ℚ) (last t : Pose) :
    dynamicsGate dynConf dt { last with yaw := last.yaw + d } { t with yaw := t.yaw + d }
      ↔ dynamicsGate dynConf dt last t := by
  unfold dynamicsGate
  dsimp only
  rw [show t.yaw + d - (last.yaw + d) = t.yaw - last.yaw from by ring]

/-- C10: the only divisions of the engine are the initialization centroid,
whose divisor is the nominal marker count of the object — nonzero exactly when
the marker configuration is nonempty — and the tracking rates, whose divisor
dt is, under a monotone clock, nonzero exactly when the frame stamp strictly
exceeds the stored stamp; update forwards to runICP without any check. -/
theorem C10_division_preconditions
    (prims : PCLPrimitives) (markerConfigurations : List MarkerConfiguration)
    (markers : List Point3) (object : Object) (stamp : ℚ) (tracker : ObjectTracker)
    (objMarkers : MarkerConfiguration)
    (hm : objMarkers = markerConfigurations.getD object.m_markerConfigurationIdx [])
    (hmono : object.m_lastValidTransform ≤ stamp) :
    (objectInitCenter prims markerConfigurations markers object
        = knnCentroid markers
            (prims.nearestKSearch markers
              { x := object.m_lastTransformation.x
                y := object.m_lastTransformation.y
                z := object.m_lastTransformation.z } objMarkers.length)
            objMarkers.length
      ∧ (((objMarkers.length : ℚ) ≠ 0) ↔ objMarkers ≠ [])) ∧
    ((dtOf stamp object ≠ 0) ↔ object.m_lastValidTransform < stamp) ∧
    update prims tracker markers stamp = runICP prims tracker markers stamp := by
  subst hm
  refine ⟨⟨rfl, ?_⟩, ?_, rfl⟩
  · simp [Nat.cast_ne_zero, ne_eq, List.length_eq_zero]
  · constructor
    · intro hne
      rcases lt_or_eq_of_le hmono with hlt | heq
      · exact hlt
      · exact absurd (show dtOf stamp object = 0 by
          show stamp - object.m_lastValidTransform = 0
          rw [heq]; ring) hne
    · intro hlt
      show stamp - object.m_lastValidTransform ≠ 0
      exact sub_ne_zero_of_ne (ne_of_gt hlt)

/-- C10 witness: update forwards to runICP on a concrete tracker. -/
theorem C10_witness :
    update constPrims wTracker [] 1 = runICP constPrims wTracker [] 1 := by
  exact (C10_division_preconditions constPrims [[]] [] wObject 1 wTracker
    ([[]].getD wObject.m_markerConfigurationIdx [])
    rfl (by norm_num [wObject, Object.construct, clockEpoch])).2.2

end libobjecttracker
